import Mathlib

/-!
Verification of the ObaNet authentication and session-lifecycle subsystem.

This file shallowly embeds the authentication core of the ObaNet backend:
the JWT configuration (`src/config/config.js`), the Redis utility layer
(`src/config/redis.js`), the user model's token generators
(`src/models/User.js`), the authentication middleware chain
(`src/middleware/auth.js`), and the auth controller
(`src/controllers/authController.js`).

Modelling conventions:
- Time is a `Nat` of seconds (milliseconds where the source uses
  `Date.now()` arithmetic, noted locally).
- JWTs are modelled symbolically: a token records its payload, the secret
  it was signed with, its absolute expiry, and whether it is structurally
  well formed.  `jwtVerify` checks structure and signature first and the
  expiry second, exactly as the `jsonwebtoken` library does.
- Redis is a list of (key, value, absolute-expiry) entries together with a
  readiness flag; every utility fails open when the client is not ready,
  as the source's `redisUtils` wrappers do.
- bcrypt and sha256 are modelled as opaque-looking injective string
  encodings; no property of the hash functions themselves is used.
-/

namespace ObaNet

/-- JWT section of `src/config/config.js`: two distinct secrets, access
tokens live `7d`, refresh tokens live `30d`, algorithm fixed. -/
structure JwtConfig where
  secret : String
  refreshSecret : String
  expiresIn : Nat
  refreshExpiresIn : Nat
deriving DecidableEq, Repr

/-- The defaults hard-coded in `src/config/config.js` (used when the
corresponding environment variables are unset). -/
def defaultJwtConfig : JwtConfig :=
  { secret := "fallback-secret-key-change-in-production"
    refreshSecret := "fallback-refresh-secret"
    expiresIn := 7 * 24 * 60 * 60
    refreshExpiresIn := 30 * 24 * 60 * 60 }

/-- `config.cache.ttl.user` : 30 minutes, the TTL of cached user documents. -/
def cacheTtlUser : Nat := 60 * 30

/-- `config.cache.ttl.short` : 5 minutes, default TTL of `redisUtils.incr`. -/
def cacheTtlShort : Nat := 60 * 5

/-- The fields of the mongoose `User` document that the authentication core
reads or writes (`src/models/User.js`).  `password`,
`emailVerificationToken` and `passwordResetToken` are `Option`s because
query projections (`.select('-password ...')`) remove them. -/
structure UserDoc where
  id : String
  email : String
  username : String
  role : String
  status : String
  password : Option String
  emailVerificationToken : Option String
  passwordResetToken : Option String
  passwordResetExpires : Option Nat
deriving DecidableEq, Repr

/-- Symbolic bcrypt: `user.password` stores `bcryptHash plaintext`; the
pre-save hook hashes and `comparePassword` compares one-way. -/
def bcryptHash (s : String) : String := "bcrypt$" ++ s

/-- `userSchema.methods.comparePassword`: one-way comparison of a candidate
plaintext against the stored hash. -/
def comparePassword (candidate storedHash : String) : Bool :=
  storedHash == bcryptHash candidate

/-- Symbolic sha256 hex digest, used for the one-time reset/verification
tokens (`crypto.createHash('sha256').update(t).digest('hex')`). -/
def sha256Hex (s : String) : String := "sha256$" ++ s

/-- A signed JWT, modelled symbolically.  Access tokens carry
`{userId, email, username, role}`; refresh tokens carry
`{userId, type: 'refresh'}` (`typ` is `"refresh"` there and `""` for
access tokens).  `secret` is the key the token was signed with and `exp`
its absolute expiry in seconds. -/
structure Token where
  userId : String
  email : String
  username : String
  role : String
  typ : String
  secret : String
  exp : Nat
  wellFormed : Bool
deriving DecidableEq, Repr

/-- The two error classes of `jsonwebtoken.verify` that the middleware
distinguishes: `TokenExpiredError` and `JsonWebTokenError`. -/
inductive JwtError
  | tokenExpired
  | jsonWebToken
deriving DecidableEq, Repr

/-- `jwt.verify(token, secret)`: structure and signature are checked first
(failure is a `JsonWebTokenError`), then the embedded expiry (failure at
`now >= exp` is a `TokenExpiredError`), exactly as `jsonwebtoken` does. -/
def jwtVerify (t : Token) (secret : String) (now : Nat) : Except JwtError Token :=
  if t.wellFormed && (t.secret == secret) then
    if t.exp ≤ now then .error .tokenExpired else .ok t
  else .error .jsonWebToken

/-- `userSchema.methods.generateAuthToken`: payload
`{userId, email, username, role}` signed with the access secret, expiry
`now + expiresIn`. -/
def generateAuthToken (cfg : JwtConfig) (u : UserDoc) (now : Nat) : Token :=
  { userId := u.id, email := u.email, username := u.username, role := u.role
    typ := "", secret := cfg.secret, exp := now + cfg.expiresIn
    wellFormed := true }

/-- `userSchema.methods.generateRefreshToken`: payload
`{userId, type: 'refresh'}` signed with the refresh secret, expiry
`now + refreshExpiresIn`. -/
def generateRefreshToken (cfg : JwtConfig) (u : UserDoc) (now : Nat) : Token :=
  { userId := u.id, email := "", username := "", role := "", typ := "refresh"
    secret := cfg.refreshSecret, exp := now + cfg.refreshExpiresIn
    wellFormed := true }

/-- The namespaced Redis keys the auth core uses
(`blacklist:<token>`, `blacklist:refresh:<token>`, `diaspora:<userId>`,
`refresh_token:<userId>`, `rate_limit:user:<userId>`). -/
inductive RKey
  | blacklist (t : Token)
  | blacklistRefresh (t : Token)
  | diaspora (userId : String)
  | refreshSlot (userId : String)
  | rateLimitUser (userId : String)
deriving DecidableEq, Repr

/-- Values stored in Redis by the auth core: the literal string
`'blacklisted'`, a JSON-serialized user document, a counter, or a stored
refresh token. -/
inductive RVal
  | str (s : String)
  | user (u : UserDoc)
  | num (n : Nat)
  | tok (t : Token)
deriving DecidableEq, Repr

/-- One Redis entry: key, value and absolute expiry time. -/
structure REntry where
  key : RKey
  val : RVal
  expiresAt : Nat
deriving DecidableEq, Repr

/-- The Redis store: a readiness flag (`redisClient.isReady`) and the live
entries.  Keys are unique by construction (writes replace). -/
structure RedisState where
  ready : Bool
  entries : List REntry
deriving DecidableEq, Repr

/-- The entry currently live under `k`: present and not yet expired. -/
def rliveEntry (st : RedisState) (now : Nat) (k : RKey) : Option REntry :=
  match st.entries.find? (fun e => e.key == k) with
  | some e => if now < e.expiresAt then some e else none
  | none => none

/-- `redisUtils.get` (together with the JSON round-trip): the live value
under `k`, or `none` when absent, expired, or the client is not ready. -/
def rget (st : RedisState) (now : Nat) (k : RKey) : Option RVal :=
  if st.ready then (rliveEntry st now k).map (fun e => e.val) else none

/-- `redisUtils.set(key, value, ttl)`: `SETEX`, replacing any previous
entry under the key; returns `false` without writing when the client is
not ready. -/
def rset (st : RedisState) (now : Nat) (k : RKey) (v : RVal) (ttl : Nat) :
    RedisState × Bool :=
  if st.ready then
    ({ st with entries :=
        ⟨k, v, now + ttl⟩ :: st.entries.filter (fun e => !(e.key == k)) }, true)
  else (st, false)

/-- `redisUtils.del(key)`: removes the entry; no-op when not ready. -/
def rdel (st : RedisState) (k : RKey) : RedisState :=
  if st.ready then
    { st with entries := st.entries.filter (fun e => !(e.key == k)) }
  else st

/-- `redisUtils.exists(key)`: `true` only when the client is ready and a
live entry exists — i.e. the check fails open on store unavailability. -/
def rexists (st : RedisState) (now : Nat) (k : RKey) : Bool :=
  st.ready && (rliveEntry st now k).isSome

/-- `redisUtils.incr(key, ttl)`: atomic `INCR`; when the resulting value
is `1` (fresh or expired key) the expiry is set to `now + ttl`, otherwise
the existing expiry is left untouched.  Returns `1` without touching the
store when the client is not ready. -/
def rincr (st : RedisState) (now : Nat) (k : RKey) (ttl : Nat) :
    Nat × RedisState :=
  if st.ready then
    match rliveEntry st now k with
    | some e =>
      match e.val with
      | .num n =>
          (n + 1, { st with entries :=
            ⟨k, .num (n + 1), e.expiresAt⟩ ::
              st.entries.filter (fun x => !(x.key == k)) })
      | _ => (1, st)
    | none =>
        (1, { st with entries :=
          ⟨k, .num 1, now + ttl⟩ ::
            st.entries.filter (fun x => !(x.key == k)) })
  else (1, st)

/-- `redisUtils.cacheDiasporaData(userId, doc)`: stores the user document
under `diaspora:<userId>` with the 30-minute user TTL. -/
def cacheDiasporaData (st : RedisState) (now : Nat) (userId : String)
    (u : UserDoc) : RedisState :=
  (rset st now (.diaspora userId) (.user u) cacheTtlUser).fst

/-- `redisUtils.getDiasporaData(userId)`: the cached user document, if a
live one is stored. -/
def getDiasporaData (st : RedisState) (now : Nat) (userId : String) :
    Option UserDoc :=
  match rget st now (.diaspora userId) with
  | some (.user u) => some u
  | _ => none

/-- `User.findById` over the credential store (full documents). -/
def findById (db : List UserDoc) (uid : String) : Option UserDoc :=
  db.find? (fun u => u.id == uid)

/-- `User.findOne({email})`. -/
def findByEmail (db : List UserDoc) (email : String) : Option UserDoc :=
  db.find? (fun u => u.email == email)

/-- The projection `.select('-password -emailVerificationToken
-passwordResetToken')` used by the middleware's store lookup. -/
def stripAuthFields (u : UserDoc) : UserDoc :=
  { u with password := none, emailVerificationToken := none
           passwordResetToken := none }

/-- The projection `.select('-password')`. -/
def stripPassword (u : UserDoc) : UserDoc := { u with password := none }

/-- The `Authorization` request header: either a bearer token or some
other string (which `authenticate` treats the same as a missing header). -/
inductive AuthHeader
  | bearer (t : Token)
  | nonBearer (s : String)
deriving DecidableEq, Repr

/-- What a middleware does with a request: send an error response itself
(`res.status(..).json(..)`), or call `next()` with `req.user` set to the
given identity (`none` = anonymous). -/
inductive MwOutcome
  | respond (status : Nat) (code : String)
  | proceed (user : Option UserDoc)
deriving DecidableEq, Repr

/-- The `authenticate` middleware of `src/middleware/auth.js`:
header check → `jwt.verify` against the access secret → blacklist check →
user resolution (cache hit, else store lookup with auth fields stripped,
then a cache write) → account-status check → attach `req.user`.
Returns the outcome together with the resulting Redis state. -/
def authenticate (cfg : JwtConfig) (db : List UserDoc) (st : RedisState)
    (now : Nat) (hdr : Option AuthHeader) : MwOutcome × RedisState :=
  match hdr with
  | none => (.respond 401 "NO_TOKEN", st)
  | some (.nonBearer _) => (.respond 401 "NO_TOKEN", st)
  | some (.bearer token) =>
    match jwtVerify token cfg.secret now with
    | .error .tokenExpired => (.respond 401 "TOKEN_EXPIRED", st)
    | .error .jsonWebToken => (.respond 401 "INVALID_TOKEN", st)
    | .ok decoded =>
      if rexists st now (.blacklist token) then
        (.respond 401 "TOKEN_REVOKED", st)
      else
        match getDiasporaData st now decoded.userId with
        | some cached =>
          if cached.status == "active" then (.proceed (some cached), st)
          else (.respond 403 "ACCOUNT_SUSPENDED", st)
        | none =>
          match findById db decoded.userId with
          | none => (.respond 401 "USER_NOT_FOUND", st)
          | some raw =>
            let u := stripAuthFields raw
            let st' := cacheDiasporaData st now u.id u
            if u.status == "active" then (.proceed (some u), st')
            else (.respond 403 "ACCOUNT_SUSPENDED", st')

/-- The `optionalAuth` middleware.  Without a bearer header it proceeds as
guest.  With one it invokes `authenticate(req, res, cb)`; `authenticate`
sends its error responses itself and only calls its continuation on
success, so the `cb` branch that clears `req.user` on an error argument is
unreachable and a failed pipeline still produces `authenticate`'s
response. -/
def optionalAuth (cfg : JwtConfig) (db : List UserDoc) (st : RedisState)
    (now : Nat) (hdr : Option AuthHeader) : MwOutcome × RedisState :=
  match hdr with
  | none => (.proceed none, st)
  | some (.nonBearer _) => (.proceed none, st)
  | some (.bearer _) => authenticate cfg db st now hdr

/-- `blacklistToken(token, type)`: writes `'blacklisted'` under the
namespaced blacklist key with a fixed TTL — 30 days for refresh tokens,
7 days for access tokens. -/
def blacklistToken (st : RedisState) (now : Nat) (token : Token)
    (isRefresh : Bool) : RedisState :=
  let k := if isRefresh then RKey.blacklistRefresh token
           else RKey.blacklist token
  let ttl := if isRefresh then 30 * 24 * 60 * 60 else 7 * 24 * 60 * 60
  (rset st now k (.str "blacklisted") ttl).fst

/-- The `logout` controller (runs behind `authenticate`): blacklists the
presented access token, deletes the user's stored refresh-token slot and
the user's cache entry. -/
def logout (st : RedisState) (now : Nat) (token : Token) (userId : String) :
    RedisState :=
  rdel (rdel (blacklistToken st now token false) (.refreshSlot userId))
    (.diaspora userId)

/-- A JSON `{success, message}` response body. -/
structure ApiMessage where
  success : Bool
  message : String
deriving DecidableEq, Repr

/-- The `forgotPassword` controller.  `resetToken` stands for the
`crypto.randomBytes(32).toString('hex')` value drawn at runtime; `nowMs`
is `Date.now()` in milliseconds.  Returns the response body and the
updated credential store. -/
def forgotPassword (db : List UserDoc) (email : String) (resetToken : String)
    (nowMs : Nat) : ApiMessage × List UserDoc :=
  match findByEmail db email with
  | none =>
    ({ success := true
       message := "Eğer bu e-posta adresi sistemde kayıtlıysa, şifre sıfırlama bağlantısı gönderildi" },
     db)
  | some user =>
    let user' := { user with
      passwordResetToken := some (sha256Hex resetToken)
      passwordResetExpires := some (nowMs + 30 * 60 * 1000) }
    ({ success := true
       message := "Şifre sıfırlama bağlantısı e-posta adresinize gönderildi" },
     db.map (fun u => if u.id == user.id then user' else u))

/-- The token envelope returned by token-issuing endpoints. -/
structure TokenEnvelope where
  accessToken : Token
  refreshToken : Token
  expiresIn : Nat
deriving DecidableEq, Repr

/-- `createSendTokens(user, statusCode, res)`: issues an access and a
refresh token, stores the refresh token under `refresh_token:<userId>`
for 30 days, then clears `user.password` on the in-memory document (after
any cache write the caller already performed) and sends the envelope. -/
def createSendTokens (cfg : JwtConfig) (u : UserDoc) (st : RedisState)
    (now : Nat) : TokenEnvelope × RedisState :=
  let accessToken := generateAuthToken cfg u now
  let refreshToken := generateRefreshToken cfg u now
  let st1 := (rset st now (.refreshSlot u.id) (.tok refreshToken)
    (30 * 24 * 60 * 60)).fst
  (⟨accessToken, refreshToken, cfg.expiresIn⟩, st1)

/-- Outcome of an auth-service endpoint: an error response or a token
envelope. -/
inductive AuthSvcOutcome
  | err (status : Nat) (code : String)
  | ok (tokens : TokenEnvelope)
deriving DecidableEq, Repr

/-- The `login` controller: looks the user up by email with
`.select('+password')` (full document, hash included), verifies the
password, checks the account status, caches the **full** document under
`diaspora:<userId>`, and only then issues tokens via `createSendTokens`
(which strips the password from the response object, after the cache
write). -/
def login (cfg : JwtConfig) (db : List UserDoc) (st : RedisState) (now : Nat)
    (email password : String) : AuthSvcOutcome × RedisState :=
  match findByEmail db email with
  | none => (.err 401 "INVALID_CREDENTIALS", st)
  | some user =>
    if comparePassword password (user.password.getD "") then
      if user.status == "active" then
        let st1 := cacheDiasporaData st now user.id user
        let (env, st2) := createSendTokens cfg user st1 now
        (.ok env, st2)
      else (.err 403 "ACCOUNT_SUSPENDED", st)
    else (.err 401 "INVALID_CREDENTIALS", st)

/-- The `register` controller: uniqueness checks on email and username,
creation of the user document (password bcrypt-hashed by the pre-save
hook, status defaulting to `'active'`, a hashed email-verification token
stored), a cache write of the **full** document, then `createSendTokens`.
`newId` stands for the ObjectId minted by the store and
`verificationToken` for the random bytes drawn at runtime. -/
def register (cfg : JwtConfig) (db : List UserDoc) (st : RedisState)
    (now : Nat) (newId username email password verificationToken : String) :
    AuthSvcOutcome × RedisState × List UserDoc :=
  match db.find? (fun u => u.email == email || u.username == username) with
  | some existing =>
    if existing.email == email then (.err 400 "EMAIL_EXISTS", st, db)
    else (.err 400 "USERNAME_EXISTS", st, db)
  | none =>
    let u : UserDoc :=
      { id := newId, email := email, username := username, role := "user"
        status := "active", password := some (bcryptHash password)
        emailVerificationToken := some (sha256Hex verificationToken)
        passwordResetToken := none, passwordResetExpires := none }
    let db' := db ++ [u]
    let st1 := cacheDiasporaData st now u.id u
    let (env, st2) := createSendTokens cfg u st1 now
    (.ok env, st2, db')

/-- Outcome of the refresh flow: an error response or the fresh token
pair returned to the client. -/
inductive RefreshOutcome
  | err (status : Nat) (code : String)
  | ok (accessToken refreshToken : Token)
deriving DecidableEq, Repr

/-- The refresh flow: the `validateRefreshToken` middleware (verification
against the **refresh** secret, refresh-blacklist check, user lookup with
`.select('-password')`, status check) composed with the `refreshToken`
controller (new token pair, blacklist the old refresh token for 30 days,
store the new refresh token). -/
def refreshFlow (cfg : JwtConfig) (db : List UserDoc) (st : RedisState)
    (now : Nat) (body : Option Token) : RefreshOutcome × RedisState :=
  match body with
  | none => (.err 400 "REFRESH_TOKEN_REQUIRED", st)
  | some rtok =>
    match jwtVerify rtok cfg.refreshSecret now with
    | .error _ => (.err 401 "INVALID_REFRESH_TOKEN", st)
    | .ok decoded =>
      if rexists st now (.blacklistRefresh rtok) then
        (.err 401 "REFRESH_TOKEN_REVOKED", st)
      else
        match findById db decoded.userId with
        | none => (.err 401 "INVALID_REFRESH_TOKEN", st)
        | some raw =>
          let user := stripPassword raw
          if user.status == "active" then
            let accessToken := generateAuthToken cfg user now
            let newRefresh := generateRefreshToken cfg user now
            let st1 := blacklistToken st now rtok true
            let st2 := (rset st1 now (.refreshSlot user.id) (.tok newRefresh)
              (30 * 24 * 60 * 60)).fst
            (.ok accessToken newRefresh, st2)
          else (.err 401 "INVALID_REFRESH_TOKEN", st)

/-- Outcome of the per-user rate limiter: pass through or a 429. -/
inductive RLOutcome
  | pass
  | limited (status : Nat) (code : String)
deriving DecidableEq, Repr

/-- The `userRateLimit(windowMs, maxRequests)` middleware: skipped
entirely when no authenticated identity is attached; otherwise an atomic
increment of `rate_limit:user:<id>` with TTL `windowMs/1000`, rejecting
with 429 when the incremented count exceeds the limit. -/
def userRateLimit (windowMs maxRequests : Nat) (user : Option String)
    (st : RedisState) (now : Nat) : RLOutcome × RedisState :=
  match user with
  | none => (.pass, st)
  | some uid =>
    let r := rincr st now (.rateLimitUser uid) (windowMs / 1000)
    if maxRequests < r.fst then
      (.limited 429 "USER_RATE_LIMIT_EXCEEDED", r.snd)
    else (.pass, r.snd)

/-- The `(windowMs, maxRequests)` pairs of the `userRateLimit` instances
mounted on the public auth routes (`src/routes/auth.js`): register, login,
refresh-token, forgot-password, reset-password, resend-verification —
all mounted before `router.use(authenticate)`. -/
def authRouterPublicLimits : List (Nat × Nat) :=
  [(15 * 60 * 1000, 5), (15 * 60 * 1000, 10), (60 * 1000, 5),
   (60 * 60 * 1000, 3), (60 * 60 * 1000, 5), (60 * 60 * 1000, 3)]

/-- The state after `n` consecutive requests from user `uid` through the
per-user rate limiter, all at time `t`. -/
def rlRunN (windowMs maxRequests : Nat) (uid : String) (t : Nat) :
    Nat → RedisState → RedisState
  | 0, st => st
  | n + 1, st =>
    (userRateLimit windowMs maxRequests (some uid)
      (rlRunN windowMs maxRequests uid t n st) t).snd

/- Concrete fixtures used by counterexamples and witnesses. -/

/-- An active registered user `u1` with email `a@x.com`. -/
def exActiveUser : UserDoc :=
  { id := "u1", email := "a@x.com", username := "ua", role := "user"
    status := "active", password := some (bcryptHash "pw")
    emailVerificationToken := none, passwordResetToken := none
    passwordResetExpires := none }

/-- The same user with a suspended account, as stored in the credential
store. -/
def exSuspendedUser : UserDoc := { exActiveUser with status := "suspended" }

/-- An access token for `u1`, issued at time 0 under the default config. -/
def exToken : Token := generateAuthToken defaultJwtConfig exActiveUser 0

/-- A cache state holding a stale `active` copy of `u1`, live until
t = 1000. -/
def exStaleCache : RedisState :=
  ⟨true, [⟨.diaspora "u1", .user exActiveUser, 1000⟩]⟩

/-- A structurally malformed bearer token. -/
def exMalformedTok : Token := { exToken with wellFormed := false }

/-- An access token with only 100 seconds of remaining lifetime at t = 0. -/
def exShortTok : Token := { exToken with exp := 100 }

end ObaNet

namespace ObaNet

/- Helper lemmas about the Redis model. -/

theorem rset_fst_ready (st : RedisState) (now : Nat) (k : RKey) (v : RVal)
    (ttl : Nat) : ((rset st now k v ttl).fst).ready = st.ready := by
  unfold rset; split <;> rfl

theorem rdel_ready (st : RedisState) (k : RKey) :
    (rdel st k).ready = st.ready := by
  unfold rdel; split <;> rfl

theorem find?_filter_of_imp {α : Type} (p q : α → Bool) (l : List α)
    (h : ∀ x, p x = true → q x = true) :
    (l.filter q).find? p = l.find? p := by
  induction l with
  | nil => rfl
  | cons a l ih =>
    by_cases hq : q a = true
    · by_cases hp : p a = true
      · simp [List.filter_cons, hq, hp]
      · simp only [Bool.not_eq_true] at hp
        simp [List.filter_cons, hq, hp, ih]
    · have hp : p a = false := by
        rcases Bool.eq_false_or_eq_true (p a) with h' | h'
        · exact absurd (h a h') hq
        · exact h'
      simp only [Bool.not_eq_true] at hq
      simp [List.filter_cons, hq, hp, ih]

theorem find?_key_filter_ne (l : List REntry) (k k' : RKey) (h : k ≠ k') :
    (l.filter (fun e => !(e.key == k'))).find? (fun e => e.key == k)
      = l.find? (fun e => e.key == k) := by
  apply find?_filter_of_imp
  intro x hx
  have hxk : x.key = k := by simpa using hx
  simp [hxk, h]

theorem rliveEntry_rset_fst_ne (st : RedisState) (now now' : Nat)
    (k k' : RKey) (v : RVal) (ttl : Nat) (h : k ≠ k') :
    rliveEntry ((rset st now k' v ttl).fst) now' k = rliveEntry st now' k := by
  by_cases hr : st.ready = true
  · have hk : ¬(((⟨k', v, now + ttl⟩ : REntry).key == k) = true) := by
      simp only [beq_iff_eq]
      exact fun hh => h hh.symm
    simp only [rset, hr, if_true]
    unfold rliveEntry
    have hfind : List.find? (fun e => e.key == k)
        (⟨k', v, now + ttl⟩ :: st.entries.filter (fun e => !(e.key == k')))
        = List.find? (fun e => e.key == k) st.entries := by
      rw [List.find?_cons_of_neg]
      · exact find?_key_filter_ne st.entries k k' h
      · exact hk
    rw [hfind]
  · simp [rset, hr]

theorem rliveEntry_rset_fst_self (st : RedisState) (now now' : Nat)
    (k : RKey) (v : RVal) (ttl : Nat) (hready : st.ready = true) :
    rliveEntry ((rset st now k v ttl).fst) now' k
      = if now' < now + ttl then some ⟨k, v, now + ttl⟩ else none := by
  simp only [rset, hready, if_true]
  unfold rliveEntry
  have hfind : List.find? (fun e => e.key == k)
      (⟨k, v, now + ttl⟩ :: st.entries.filter (fun e => !(e.key == k)))
      = some ⟨k, v, now + ttl⟩ := by
    rw [List.find?_cons_of_pos]
    simp
  rw [hfind]

theorem rliveEntry_rdel_ne (st : RedisState) (now : Nat) (k k' : RKey)
    (h : k ≠ k') :
    rliveEntry (rdel st k') now k = rliveEntry st now k := by
  by_cases hr : st.ready = true
  · simp only [rdel, hr, if_true]
    unfold rliveEntry
    simp only [find?_key_filter_ne st.entries k k' h]
  · simp [rdel, hr]

theorem blacklistToken_ready (st : RedisState) (now : Nat) (tok : Token)
    (isRefresh : Bool) :
    (blacklistToken st now tok isRefresh).ready = st.ready := by
  unfold blacklistToken
  exact rset_fst_ready ..

theorem logout_ready (st : RedisState) (now : Nat) (tok : Token)
    (uid : String) : (logout st now tok uid).ready = st.ready := by
  unfold logout
  rw [rdel_ready, rdel_ready, blacklistToken_ready]

/-- C1 counterexample: user `u1` is `suspended` in the credential store,
but the session cache still holds a stale copy with status `active`; the
middleware trusts the cache, never consults the store, and attaches the
stale identity instead of rejecting with `ACCOUNT_SUSPENDED`. -/
theorem c1_staleCacheAdmitsSuspendedUser :
    exSuspendedUser.status = "suspended"
    ∧ findById [exSuspendedUser] exToken.userId = some exSuspendedUser
    ∧ jwtVerify exToken defaultJwtConfig.secret 100 = .ok exToken
    ∧ rexists exStaleCache 100 (.blacklist exToken) = false
    ∧ (authenticate defaultJwtConfig [exSuspendedUser] exStaleCache 100
        (some (.bearer exToken))).fst = .proceed (some exActiveUser) :=
  ⟨rfl, rfl, rfl, rfl, rfl⟩

/-- C1 (amended): for a signature-valid, unexpired, non-revoked bearer
token, whenever the session cache holds **no** live entry for the token's
user, a status different from `active` in the credential store makes the
middleware reject with 403 `ACCOUNT_SUSPENDED` and attach no identity.
(The unamended claim — rejection regardless of cache contents — fails:
the middleware checks the status of the cached copy when one is live, see
the counterexample.) -/
theorem c1_statusGateOnCacheMiss
    (cfg : JwtConfig) (db : List UserDoc) (st : RedisState) (now : Nat)
    (tok : Token) (u : UserDoc)
    (hver : jwtVerify tok cfg.secret now = .ok tok)
    (hbl : rexists st now (.blacklist tok) = false)
    (hmiss : getDiasporaData st now tok.userId = none)
    (hdb : findById db tok.userId = some u)
    (hstatus : u.status ≠ "active") :
    (authenticate cfg db st now (some (.bearer tok))).fst
      = .respond 403 "ACCOUNT_SUSPENDED" := by
  simp only [authenticate, hver, hbl, hmiss, hdb, Bool.false_eq_true,
    if_false]
  simp [stripAuthFields, hstatus]

/-- C1 witness: a concrete instantiation of the cache-miss status gate. -/
theorem c1_statusGateOnCacheMiss_witness :
    (authenticate defaultJwtConfig [exSuspendedUser] ⟨true, []⟩ 100
      (some (.bearer exToken))).fst = .respond 403 "ACCOUNT_SUSPENDED" :=
  c1_statusGateOnCacheMiss defaultJwtConfig [exSuspendedUser] ⟨true, []⟩ 100
    exToken exSuspendedUser rfl rfl rfl rfl (by decide)

theorem rliveEntry_blacklistToken (st : RedisState) (now now' : Nat)
    (tok : Token) (isRefresh : Bool) (hready : st.ready = true) :
    rliveEntry (blacklistToken st now tok isRefresh) now'
        (if isRefresh then RKey.blacklistRefresh tok else RKey.blacklist tok)
      = if now' < now + (if isRefresh then 30 * 24 * 60 * 60
                         else 7 * 24 * 60 * 60) then
          some ⟨if isRefresh then RKey.blacklistRefresh tok
                else RKey.blacklist tok, .str "blacklisted",
            now + (if isRefresh then 30 * 24 * 60 * 60
                   else 7 * 24 * 60 * 60)⟩
        else none := by
  cases isRefresh <;>
    simp [blacklistToken, rliveEntry_rset_fst_self _ _ _ _ _ _ hready]

/-- C2: once `logout` has blacklisted an access token, every later run of
the authentication middleware presented with that exact token fails with
401 `TOKEN_REVOKED`, as long as the token's embedded expiry has not yet
passed and the registry store is reachable.  The hypothesis
`cfg.expiresIn ≤ 7d` records the deployed access-token lifetime, which
makes the fixed 7-day blacklist TTL outlive the token. -/
theorem c2_logoutRevocationIsTerminal
    (cfg : JwtConfig) (db : List UserDoc) (st : RedisState)
    (u : UserDoc) (uid : String) (issueT logoutT t2 : Nat)
    (hready : st.ready = true)
    (hcap : cfg.expiresIn ≤ 7 * 24 * 60 * 60)
    (hord : issueT ≤ logoutT) (hlater : logoutT ≤ t2)
    (hunexp : t2 < issueT + cfg.expiresIn) :
    (authenticate cfg db
        (logout st logoutT (generateAuthToken cfg u issueT) uid) t2
        (some (.bearer (generateAuthToken cfg u issueT)))).fst
      = .respond 401 "TOKEN_REVOKED" := by
  have hver : jwtVerify (generateAuthToken cfg u issueT) cfg.secret t2
      = .ok (generateAuthToken cfg u issueT) := by
    simp [jwtVerify, generateAuthToken, Nat.not_le.mpr hunexp]
  have hbl : rexists
      (logout st logoutT (generateAuthToken cfg u issueT) uid) t2
      (.blacklist (generateAuthToken cfg u issueT)) = true := by
    unfold rexists logout
    rw [rdel_ready, rdel_ready, blacklistToken_ready, hready,
      rliveEntry_rdel_ne _ _ _ _ (fun hh => RKey.noConfusion hh),
      rliveEntry_rdel_ne _ _ _ _ (fun hh => RKey.noConfusion hh)]
    have hb := rliveEntry_blacklistToken st logoutT t2
      (generateAuthToken cfg u issueT) false hready
    simp only [if_false, Bool.false_eq_true] at hb
    rw [hb, if_pos (by omega)]
    rfl
  simp only [authenticate, hver, hbl, if_true]

/-- C2 witness: user `u1` logs out at t = 50; at t = 100 the same token
is rejected as revoked. -/
theorem c2_logoutRevocationIsTerminal_witness :
    (authenticate defaultJwtConfig []
        (logout (⟨true, []⟩ : RedisState) 50
          (generateAuthToken defaultJwtConfig exActiveUser 0) "u1") 100
        (some (.bearer (generateAuthToken defaultJwtConfig exActiveUser 0)))).fst
      = .respond 401 "TOKEN_REVOKED" :=
  c2_logoutRevocationIsTerminal defaultJwtConfig [] ⟨true, []⟩ exActiveUser
    "u1" 0 50 100 rfl (by decide) (by decide) (by decide) (by decide)

/-- C3: `forgotPassword` is observably different for a registered and an
unregistered email — both responses report success, but the messages
differ, so a caller can tell whether the email exists, contrary to the
spec and to the code's own comment at the unknown-email branch. -/
theorem c3_forgotPasswordMessagesDiffer :
    (forgotPassword [exActiveUser] "a@x.com" "rt" 0).fst.success = true
    ∧ (forgotPassword [exActiveUser] "b@x.com" "rt" 0).fst.success = true
    ∧ (forgotPassword [exActiveUser] "a@x.com" "rt" 0).fst.message
        ≠ (forgotPassword [exActiveUser] "b@x.com" "rt" 0).fst.message := by
  refine ⟨rfl, rfl, ?_⟩
  decide

/-- C4: the optional-auth middleware does **not** convert pipeline
failures into anonymous access.  With a malformed bearer token present it
sends `authenticate`'s 401 `INVALID_TOKEN` response instead of proceeding
with a null identity; only the missing-header case proceeds as guest. -/
theorem c4_optionalAuthRejectsOnFailure :
    (optionalAuth defaultJwtConfig [] ⟨true, []⟩ 0
        (some (.bearer exMalformedTok))).fst = .respond 401 "INVALID_TOKEN"
    ∧ (optionalAuth defaultJwtConfig [] ⟨true, []⟩ 0 none).fst
        = .proceed none :=
  ⟨rfl, rfl⟩

/-- C5 counterexample: an access token with 100 seconds of remaining
lifetime at the moment of revocation is blacklisted with a fixed 7-day
TTL (604800 s), not with TTL equal to its remaining lifetime. -/
theorem c5_blacklistTtlNotRemainingLifetime :
    exShortTok.exp = 100
    ∧ rliveEntry (blacklistToken ⟨true, []⟩ 0 exShortTok false) 0
        (.blacklist exShortTok)
        = some ⟨.blacklist exShortTok, .str "blacklisted", 7 * 24 * 60 * 60⟩
    ∧ (7 * 24 * 60 * 60 : Nat) ≠ 100 :=
  ⟨rfl, rfl, by decide⟩

/-- C5 (amended): the revocation entry is written with a **fixed** TTL —
7 days for access tokens, 30 days for refresh tokens — independent of the
token's remaining lifetime; because tokens are issued with at most these
lifetimes, the entry nevertheless lives at least as long as the token it
revokes. -/
theorem c5_blacklistFixedTtl
    (st : RedisState) (now : Nat) (tok : Token) (isRefresh : Bool)
    (hready : st.ready = true) :
    rliveEntry (blacklistToken st now tok isRefresh) now
        (if isRefresh then .blacklistRefresh tok else .blacklist tok)
      = some ⟨if isRefresh then .blacklistRefresh tok else .blacklist tok,
          .str "blacklisted",
          now + (if isRefresh then 30 * 24 * 60 * 60 else 7 * 24 * 60 * 60)⟩
    ∧ (∀ cfg u t0, cfg.expiresIn ≤ 7 * 24 * 60 * 60 → t0 ≤ now →
        (generateAuthToken cfg u t0).exp ≤ now + 7 * 24 * 60 * 60)
    ∧ (∀ cfg u t0, cfg.refreshExpiresIn ≤ 30 * 24 * 60 * 60 → t0 ≤ now →
        (generateRefreshToken cfg u t0).exp ≤ now + 30 * 24 * 60 * 60) := by
  refine ⟨?_, ?_, ?_⟩
  · have hpos : now < now +
        (if isRefresh then 30 * 24 * 60 * 60 else 7 * 24 * 60 * 60) := by
      cases isRefresh <;> simp
    rw [rliveEntry_blacklistToken st now now tok isRefresh hready,
      if_pos hpos]
  · intro cfg u t0 h1 h2
    simp only [generateAuthToken]
    omega
  · intro cfg u t0 h1 h2
    simp only [generateRefreshToken]
    omega

/-- C5 witness: a concrete blacklist write under the fixed access TTL. -/
theorem c5_blacklistFixedTtl_witness :
    rliveEntry (blacklistToken ⟨true, []⟩ 0 exShortTok false) 0
        (if false then .blacklistRefresh exShortTok
         else .blacklist exShortTok)
      = some ⟨if false then .blacklistRefresh exShortTok
          else .blacklist exShortTok, .str "blacklisted",
          0 + (if false then 30 * 24 * 60 * 60 else 7 * 24 * 60 * 60)⟩ :=
  (c5_blacklistFixedTtl ⟨true, []⟩ 0 exShortTok false rfl).1

/-- C6: the refresh flow validates specifically against the refresh
secret — any token signed with the (distinct) access secret is rejected
with 401 `INVALID_REFRESH_TOKEN` — and on success it returns a freshly
issued access+refresh pair and inserts the old refresh token into the
revocation registry. -/
theorem c6_refreshValidationAndRotation
    (cfg : JwtConfig) (db : List UserDoc) (st : RedisState) (now : Nat)
    (hsec : cfg.secret ≠ cfg.refreshSecret) :
    (∀ u t0, (refreshFlow cfg db st now
        (some (generateAuthToken cfg u t0))).fst
      = .err 401 "INVALID_REFRESH_TOKEN")
    ∧ (∀ rtok u, jwtVerify rtok cfg.refreshSecret now = .ok rtok →
        rexists st now (.blacklistRefresh rtok) = false →
        findById db rtok.userId = some u →
        u.status = "active" → st.ready = true →
        (refreshFlow cfg db st now (some rtok)).fst
          = .ok (generateAuthToken cfg (stripPassword u) now)
              (generateRefreshToken cfg (stripPassword u) now)
        ∧ rexists (refreshFlow cfg db st now (some rtok)).snd now
            (.blacklistRefresh rtok) = true) := by
  constructor
  · intro u t0
    have hv : jwtVerify (generateAuthToken cfg u t0) cfg.refreshSecret now
        = .error .jsonWebToken := by
      simp [jwtVerify, generateAuthToken, hsec]
    simp [refreshFlow, hv]
  · intro rtok u hver hnbl hdb hact hready
    refine ⟨?_, ?_⟩
    · simp [refreshFlow, hver, hnbl, hdb, stripPassword, hact]
    · have hsnd : (refreshFlow cfg db st now (some rtok)).snd
          = (rset (blacklistToken st now rtok true) now
              (.refreshSlot u.id)
              (.tok (generateRefreshToken cfg (stripPassword u) now))
              (30 * 24 * 60 * 60)).fst := by
        simp [refreshFlow, hver, hnbl, hdb, stripPassword, hact]
      rw [hsnd]
      unfold rexists
      rw [rset_fst_ready, blacklistToken_ready, hready,
        rliveEntry_rset_fst_ne _ _ _ _ _ _ _ (fun hh => RKey.noConfusion hh)]
      have hb := rliveEntry_blacklistToken st now now rtok true hready
      simp only [eq_self_iff_true, if_true] at hb
      rw [hb, if_pos (by simp)]
      rfl

/-- C6 witness: a concrete refresh-token rotation for user `u1`. -/
theorem c6_refreshValidationAndRotation_witness :
    (refreshFlow defaultJwtConfig [exActiveUser] ⟨true, []⟩ 5
        (some (generateRefreshToken defaultJwtConfig exActiveUser 0))).fst
      = .ok (generateAuthToken defaultJwtConfig (stripPassword exActiveUser) 5)
          (generateRefreshToken defaultJwtConfig (stripPassword exActiveUser) 5)
    ∧ (refreshFlow defaultJwtConfig [exActiveUser] ⟨true, []⟩ 5
        (some (generateAuthToken defaultJwtConfig exActiveUser 0))).fst
      = .err 401 "INVALID_REFRESH_TOKEN" :=
  ⟨((c6_refreshValidationAndRotation defaultJwtConfig [exActiveUser]
      ⟨true, []⟩ 5 (by decide)).2
      (generateRefreshToken defaultJwtConfig exActiveUser 0) exActiveUser
      rfl rfl rfl rfl rfl).1,
   (c6_refreshValidationAndRotation defaultJwtConfig [exActiveUser]
      ⟨true, []⟩ 5 (by decide)).1 exActiveUser 0⟩

/-- C7: token verification failure in the middleware yields two distinct,
distinguishable error kinds — expiry of a signature-valid token gives 401
`TOKEN_EXPIRED`, while an invalid signature or structure gives 401
`INVALID_TOKEN` — and the two response codes differ. -/
theorem c7_expiredAndMalformedDistinct
    (cfg : JwtConfig) (db : List UserDoc) (st : RedisState) (now : Nat)
    (tok : Token) :
    (tok.wellFormed = true → tok.secret = cfg.secret → tok.exp ≤ now →
      (authenticate cfg db st now (some (.bearer tok))).fst
        = .respond 401 "TOKEN_EXPIRED")
    ∧ ((tok.wellFormed && (tok.secret == cfg.secret)) = false →
      (authenticate cfg db st now (some (.bearer tok))).fst
        = .respond 401 "INVALID_TOKEN")
    ∧ (MwOutcome.respond 401 "TOKEN_EXPIRED"
        ≠ MwOutcome.respond 401 "INVALID_TOKEN") := by
  refine ⟨?_, ?_, by decide⟩
  · intro hw hs hexp
    have hv : jwtVerify tok cfg.secret now = .error .tokenExpired := by
      simp [jwtVerify, hw, hs, hexp]
    simp [authenticate, hv]
  · intro hbad
    have hv : jwtVerify tok cfg.secret now = .error .jsonWebToken := by
      simp only [jwtVerify, hbad, Bool.false_eq_true, if_false]
    simp [authenticate, hv]

/-- C7 witness: an expired but signature-valid token is reported
`TOKEN_EXPIRED`; a malformed token is reported `INVALID_TOKEN`. -/
theorem c7_expiredAndMalformedDistinct_witness :
    (authenticate defaultJwtConfig [] ⟨true, []⟩ (7 * 24 * 60 * 60)
        (some (.bearer exToken))).fst = .respond 401 "TOKEN_EXPIRED"
    ∧ (authenticate defaultJwtConfig [] ⟨true, []⟩ 0
        (some (.bearer exMalformedTok))).fst
        = .respond 401 "INVALID_TOKEN" :=
  ⟨(c7_expiredAndMalformedDistinct defaultJwtConfig [] ⟨true, []⟩
      (7 * 24 * 60 * 60) exToken).1 rfl rfl (by decide),
   (c7_expiredAndMalformedDistinct defaultJwtConfig [] ⟨true, []⟩ 0
      exMalformedTok).2.1 (by decide)⟩

/-- C9: the per-user rate limiter passes every request that carries no
authenticated identity through unchanged, never returning the 429
response; in particular the limiter instances on the public auth routes
(mounted before `authenticate`, so `req.user` is never set) reject no
request. -/
theorem c9_unauthenticatedRequestsNeverLimited
    (windowMs maxRequests : Nat) (st : RedisState) (now : Nat) :
    userRateLimit windowMs maxRequests none st now = (.pass, st)
    ∧ ∀ p ∈ authRouterPublicLimits,
        userRateLimit p.1 p.2 none st now = (.pass, st) :=
  ⟨rfl, fun _ _ => rfl⟩

/-- C9 witness: the register-route limiter (5 per 15 minutes) passes an
anonymous request untouched. -/
theorem c9_unauthenticatedRequestsNeverLimited_witness :
    userRateLimit (15 * 60 * 1000) 5 none ⟨true, []⟩ 0
      = (.pass, ⟨true, []⟩) :=
  (c9_unauthenticatedRequestsNeverLimited (15 * 60 * 1000) 5
    ⟨true, []⟩ 0).2 (15 * 60 * 1000, 5) (by decide)

theorem userRateLimit_snd (windowMs maxRequests : Nat) (uid : String)
    (st : RedisState) (t : Nat) :
    (userRateLimit windowMs maxRequests (some uid) st t).snd
      = (rincr st t (.rateLimitUser uid) (windowMs / 1000)).snd := by
  simp only [userRateLimit]
  split <;> rfl

theorem userRateLimit_fst (windowMs maxRequests : Nat) (uid : String)
    (st : RedisState) (t : Nat) :
    (userRateLimit windowMs maxRequests (some uid) st t).fst
      = if maxRequests < (rincr st t (.rateLimitUser uid)
            (windowMs / 1000)).fst
        then .limited 429 "USER_RATE_LIMIT_EXCEEDED" else RLOutcome.pass := by
  simp only [userRateLimit]
  split <;> rfl

theorem rincr_fresh (st : RedisState) (now : Nat) (k : RKey) (ttl : Nat)
    (hready : st.ready = true) (hnone : rliveEntry st now k = none) :
    rincr st now k ttl
      = (1, { st with entries := ⟨k, .num 1, now + ttl⟩ ::
          st.entries.filter (fun x => !(x.key == k)) }) := by
  unfold rincr
  simp [hready, hnone]

theorem rincr_live_num (st : RedisState) (now : Nat) (k : RKey) (ttl : Nat)
    (n ex : Nat) (hready : st.ready = true)
    (hlive : rliveEntry st now k = some ⟨k, .num n, ex⟩) :
    rincr st now k ttl
      = (n + 1, { st with entries := ⟨k, .num (n + 1), ex⟩ ::
          st.entries.filter (fun x => !(x.key == k)) }) := by
  unfold rincr
  simp [hready, hlive]

theorem rliveEntry_of_find?_live (st : RedisState) (now : Nat) (k : RKey)
    (e : REntry) (hf : st.entries.find? (fun x => x.key == k) = some e)
    (hlt : now < e.expiresAt) : rliveEntry st now k = some e := by
  unfold rliveEntry
  rw [hf]
  simp [hlt]

theorem rliveEntry_of_find?_expired (st : RedisState) (now : Nat)
    (k : RKey) (e : REntry)
    (hf : st.entries.find? (fun x => x.key == k) = some e)
    (hge : e.expiresAt ≤ now) : rliveEntry st now k = none := by
  unfold rliveEntry
  rw [hf]
  simp [Nat.not_lt.mpr hge]

theorem rlRunN_invariant (windowMs maxRequests : Nat) (uid : String)
    (t : Nat) (st0 : RedisState) (hready : st0.ready = true)
    (hnone : rliveEntry st0 t (.rateLimitUser uid) = none)
    (hw : 1 ≤ windowMs / 1000) :
    ∀ n : Nat, (rlRunN windowMs maxRequests uid t n st0).ready = true
      ∧ (1 ≤ n → (rlRunN windowMs maxRequests uid t n st0).entries.find?
            (fun e => e.key == RKey.rateLimitUser uid)
          = some ⟨.rateLimitUser uid, .num n, t + windowMs / 1000⟩) := by
  intro n
  induction n with
  | zero => exact ⟨hready, fun h => absurd h (by omega)⟩
  | succ m ih =>
    obtain ⟨ihr, ihf⟩ := ih
    have hstep : rlRunN windowMs maxRequests uid t (m + 1) st0
        = (userRateLimit windowMs maxRequests (some uid)
            (rlRunN windowMs maxRequests uid t m st0) t).snd := rfl
    rw [hstep, userRateLimit_snd]
    rcases Nat.eq_zero_or_pos m with hm | hm
    · subst hm
      rw [show rlRunN windowMs maxRequests uid t 0 st0 = st0 from rfl,
        rincr_fresh st0 t _ _ hready hnone]
      exact ⟨hready, fun _ => List.find?_cons_of_pos _ (by simp)⟩
    · have hlive := rliveEntry_of_find?_live _ t _ _ (ihf hm)
        (by show t < t + windowMs / 1000; omega)
      rw [rincr_live_num _ _ _ _ _ _ ihr hlive]
      exact ⟨ihr, fun _ => List.find?_cons_of_pos _ (by simp)⟩

theorem rlRunN_request_fst (windowMs maxRequests : Nat) (uid : String)
    (t : Nat) (st0 : RedisState) (hready : st0.ready = true)
    (hnone : rliveEntry st0 t (.rateLimitUser uid) = none)
    (hw : 1 ≤ windowMs / 1000) (n : Nat) :
    (userRateLimit windowMs maxRequests (some uid)
        (rlRunN windowMs maxRequests uid t n st0) t).fst
      = if maxRequests < n + 1
        then .limited 429 "USER_RATE_LIMIT_EXCEEDED" else RLOutcome.pass := by
  rw [userRateLimit_fst]
  have hfst : (rincr (rlRunN windowMs maxRequests uid t n st0) t
      (.rateLimitUser uid) (windowMs / 1000)).fst = n + 1 := by
    cases n with
    | zero =>
      rw [show rlRunN windowMs maxRequests uid t 0 st0 = st0 from rfl,
        rincr_fresh st0 t _ _ hready hnone]
    | succ m =>
      obtain ⟨ihr, ihf⟩ := rlRunN_invariant windowMs maxRequests uid t st0
        hready hnone hw (m + 1)
      have hlive := rliveEntry_of_find?_live _ t _ _ (ihf (by omega))
        (by show t < t + windowMs / 1000; omega)
      rw [rincr_live_num _ _ _ _ _ _ ihr hlive]
  rw [hfst]

/-- C8: starting a fresh window at time `t` (no live counter), the first
`maxRequests` requests pass, the next request in the same window fails
with 429 `USER_RATE_LIMIT_EXCEEDED`, the counter's expiry is set to
`t + window` by the first request and is never changed by later
increments in the window, and a request issued once the window has
elapsed passes again. -/
theorem c8_rateLimitWindow
    (windowMs maxRequests : Nat) (uid : String) (t : Nat)
    (st0 : RedisState) (hready : st0.ready = true)
    (hnone : rliveEntry st0 t (.rateLimitUser uid) = none)
    (hK : 1 ≤ maxRequests) (hw : 1 ≤ windowMs / 1000) :
    (∀ n, n < maxRequests →
      (userRateLimit windowMs maxRequests (some uid)
        (rlRunN windowMs maxRequests uid t n st0) t).fst = RLOutcome.pass)
    ∧ (userRateLimit windowMs maxRequests (some uid)
        (rlRunN windowMs maxRequests uid t maxRequests st0) t).fst
        = .limited 429 "USER_RATE_LIMIT_EXCEEDED"
    ∧ (∀ n, 1 ≤ n →
        (rlRunN windowMs maxRequests uid t n st0).entries.find?
            (fun e => e.key == RKey.rateLimitUser uid)
          = some ⟨.rateLimitUser uid, .num n, t + windowMs / 1000⟩)
    ∧ (userRateLimit windowMs maxRequests (some uid)
        (rlRunN windowMs maxRequests uid t (maxRequests + 1) st0)
        (t + windowMs / 1000)).fst = RLOutcome.pass := by
  refine ⟨?_, ?_, ?_, ?_⟩
  · intro n hn
    rw [rlRunN_request_fst windowMs maxRequests uid t st0 hready hnone hw n,
      if_neg (by omega)]
  · rw [rlRunN_request_fst windowMs maxRequests uid t st0 hready hnone hw
      maxRequests, if_pos (by omega)]
  · intro n hn
    exact (rlRunN_invariant windowMs maxRequests uid t st0 hready hnone hw
      n).2 hn
  · obtain ⟨hr, hf⟩ := rlRunN_invariant windowMs maxRequests uid t st0
      hready hnone hw (maxRequests + 1)
    have hexp : rliveEntry
        (rlRunN windowMs maxRequests uid t (maxRequests + 1) st0)
        (t + windowMs / 1000) (.rateLimitUser uid) = none :=
      rliveEntry_of_find?_expired _ _ _ _ (hf (by omega))
        (by show t + windowMs / 1000 ≤ t + windowMs / 1000; omega)
    rw [userRateLimit_fst,
      rincr_fresh _ _ _ _ hr hexp, if_neg (by omega)]

/-- C8 witness: window 60 s, limit 2 — the third request in the window is
rejected with 429. -/
theorem c8_rateLimitWindow_witness :
    (userRateLimit 60000 2 (some "u")
        (rlRunN 60000 2 "u" 0 2 ⟨true, []⟩) 0).fst
      = .limited 429 "USER_RATE_LIMIT_EXCEEDED" :=
  (c8_rateLimitWindow 60000 2 "u" 0 ⟨true, []⟩ rfl rfl (by decide)
    (by decide)).2.1

theorem getDiasporaData_after_cache (st : RedisState) (now : Nat)
    (uid : String) (u : UserDoc) (v : RVal) (ttl : Nat)
    (hready : st.ready = true) :
    getDiasporaData
      (rset (cacheDiasporaData st now uid u) now (.refreshSlot uid) v
        ttl).fst now uid = some u := by
  have hr1 : (cacheDiasporaData st now uid u).ready = true := by
    unfold cacheDiasporaData
    rw [rset_fst_ready]
    exact hready
  unfold getDiasporaData rget
  simp only [rset_fst_ready, hr1, if_true]
  rw [rliveEntry_rset_fst_ne _ _ _ _ _ _ _ (fun hh => RKey.noConfusion hh)]
  unfold cacheDiasporaData
  rw [rliveEntry_rset_fst_self _ _ _ _ _ _ hready,
    if_pos (by show now < now + cacheTtlUser; unfold cacheTtlUser; omega)]
  rfl

/-- C10: a successful login caches the **full** user document — bcrypt
hash included, since the hash is only cleared from the response object
after the cache write — so a later cache hit attaches that full document
(password hash and all) as the request identity, whereas a cache miss
attaches the store projection that excludes the password and
one-time-token fields; registration's cache write likewise retains the
hash. -/
theorem c10_cachedIdentityRetainsPasswordHash
    (cfg : JwtConfig) (db : List UserDoc) (st : RedisState) (now : Nat)
    (email pw : String) (u : UserDoc)
    (hfind : findByEmail db email = some u)
    (hpw : u.password = some (bcryptHash pw))
    (hact : u.status = "active")
    (hready : st.ready = true) :
    getDiasporaData (login cfg db st now email pw).snd now u.id = some u
    ∧ (∀ tok : Token, jwtVerify tok cfg.secret now = .ok tok →
        tok.userId = u.id →
        rexists (login cfg db st now email pw).snd now (.blacklist tok)
          = false →
        (authenticate cfg db (login cfg db st now email pw).snd now
          (some (.bearer tok))).fst = .proceed (some u))
    ∧ (∀ (st' : RedisState) (tok : Token),
        jwtVerify tok cfg.secret now = .ok tok →
        rexists st' now (.blacklist tok) = false →
        getDiasporaData st' now tok.userId = none →
        findById db tok.userId = some u →
        (authenticate cfg db st' now (some (.bearer tok))).fst
          = .proceed (some (stripAuthFields u))
        ∧ (stripAuthFields u).password = none
        ∧ (stripAuthFields u).emailVerificationToken = none
        ∧ (stripAuthFields u).passwordResetToken = none)
    ∧ (∀ newId un em p vt,
        db.find? (fun x => x.email == em || x.username == un) = none →
        (getDiasporaData (register cfg db st now newId un em p vt).2.1
            now newId).map (fun c => c.password)
          = some (some (bcryptHash p))) := by
  have hsnd : (login cfg db st now email pw).snd
      = (rset (cacheDiasporaData st now u.id u) now (.refreshSlot u.id)
          (.tok (generateRefreshToken cfg u now)) (30 * 24 * 60 * 60)).fst := by
    simp [login, hfind, comparePassword, hpw, hact, createSendTokens]
  have hcache : getDiasporaData (login cfg db st now email pw).snd now u.id
      = some u := by
    rw [hsnd]
    exact getDiasporaData_after_cache st now u.id u _ _ hready
  refine ⟨hcache, ?_, ?_, ?_⟩
  · intro tok hver htid hbl
    have hc : getDiasporaData (login cfg db st now email pw).snd now
        tok.userId = some u := by
      rw [htid]
      exact hcache
    simp only [authenticate, hver, hbl, Bool.false_eq_true, if_false, hc]
    simp [hact]
  · intro st' tok hver hbl hmiss hdb
    refine ⟨?_, rfl, rfl, rfl⟩
    simp only [authenticate, hver, hbl, Bool.false_eq_true, if_false,
      hmiss, hdb]
    simp [stripAuthFields, hact]
  · intro newId un em p vt hfree
    have hreg : (register cfg db st now newId un em p vt).2.1
        = (rset (cacheDiasporaData st now newId
            ⟨newId, em, un, "user", "active", some (bcryptHash p),
              some (sha256Hex vt), none, none⟩) now (.refreshSlot newId)
            (.tok (generateRefreshToken cfg
              ⟨newId, em, un, "user", "active", some (bcryptHash p),
                some (sha256Hex vt), none, none⟩ now))
            (30 * 24 * 60 * 60)).fst := by
      simp [register, hfree, createSendTokens]
    rw [hreg, getDiasporaData_after_cache st now newId _ _ _ hready]
    rfl

/-- C10 witness: after a concrete login, a cache hit attaches the full
document of `u1` — whose `password` field holds the bcrypt hash — as the
request identity. -/
theorem c10_cachedIdentityRetainsPasswordHash_witness :
    (authenticate defaultJwtConfig [exActiveUser]
        (login defaultJwtConfig [exActiveUser] ⟨true, []⟩ 0 "a@x.com"
          "pw").snd 0 (some (.bearer exToken))).fst
      = .proceed (some exActiveUser) :=
  ((c10_cachedIdentityRetainsPasswordHash defaultJwtConfig [exActiveUser]
      ⟨true, []⟩ 0 "a@x.com" "pw" exActiveUser rfl rfl rfl rfl).2.1)
    exToken rfl rfl rfl

end ObaNet
